import Mathlib

/-!
# Shallow embedding of `phil-inc/goweb` (`src/server.go`)

A handler in Go is a `func(w http.ResponseWriter, r *http.Request)`.  Since the
response writer offered to handlers in this embedding never fails, a handler's
observable behaviour is a function of the request alone: the trace of calls it
makes on its response writer (`Header().Set`, `WriteHeader`, `Write`), the log
lines it emits, whether it returns normally or panics, and the wall-clock time
it consumes (abstract units, needed only by the timeout wrapper).  Middleware
(`alice.Constructor`) transforms such trace-producing handlers.  A separate
interpreter `runActions` replays a trace against the `net/http` response state
(headers frozen once the status is committed, implicit 200 on first write),
giving the bytes and status the client receives.
-/

namespace Goweb

/-- A request's read-only data, as used by `server.go`: `r.Method`,
`r.RequestURI`, `r.RemoteAddr`, `r.URL.Path` (what `ServeMux` matches on) and
the header map (each key with its list of values, keys canonical). -/
structure Request where
  method : String
  requestURI : String
  path : String
  remoteAddr : String
  headers : List (String × List String)
  deriving Repr, DecidableEq

/-- `r.Header.Get k`: first value for the key, or the empty string. -/
def headerGet (r : Request) (k : String) : String :=
  match r.headers.find? (fun p => p.1 == k) with
  | some (_, v :: _) => v
  | _ => ""

/-- `strings.Contains hay nee` (character-level substring test). -/
def strContains (hay nee : String) : Bool :=
  (List.range (hay.data.length + 1)).any fun i => List.isPrefixOf nee.data (hay.data.drop i)

/-- One call a handler makes on its `http.ResponseWriter`. -/
inductive WAction where
  | setHeader (k v : String)
  | writeHeader (code : Nat)
  | write (s : String)
  deriving Repr, DecidableEq

/-- A Go panic value as the `switch x := rr.(type)` in `RecoverHandler`
distinguishes it: a `string`, an `error` (kept as its message), or anything
else. -/
inductive PanicVal where
  | str (s : String)
  | err (msg : String)
  | other
  deriving Repr, DecidableEq

/-- Whether the handler returned normally or panicked. -/
inductive Outcome where
  | ok
  | panicked (v : PanicVal)
  deriving Repr, DecidableEq

/-- The observable behaviour of one handler run: its response-writer trace (a
prefix of it when it panics mid-way), the log lines it emitted, its outcome,
and the wall-clock time it consumed. -/
structure HandlerProg where
  actions : List WAction
  logs : List String
  outcome : Outcome
  time : Nat
  deriving Repr, DecidableEq

/-- `http.Handler`, as a trace-producing function of the request. -/
def Handler : Type := Request → HandlerProg

/-- `alice.Constructor`: middleware wrapping a handler. -/
def Middleware : Type := Handler → Handler

/-- `alice.New(cs...).Then(final)`: `cs[0]` is the outermost wrapper. -/
def aliceThen (cs : List Middleware) (final : Handler) : Handler :=
  cs.foldr (fun c acc => c acc) final

/-! ## The `net/http` response state and the trace interpreter -/

/-- What the client receives: response headers, the committed status code
(`none` while headers are still open), and the body bytes. -/
structure Response where
  headers : List (String × String)
  status : Option Nat
  body : String
  deriving Repr, DecidableEq

def emptyResponse : Response := ⟨[], none, ""⟩

/-- `Header().Set`: replace the value of the key if present, else add it. -/
def setHdr (hs : List (String × String)) (k v : String) : List (String × String) :=
  if hs.any (fun p => p.1 == k) then hs.map (fun p => if p.1 == k then (k, v) else p)
  else hs ++ [(k, v)]

/-- `net/http` semantics of one writer call: header changes are ineffective
after the status is committed, `WriteHeader` commits once (later calls are
ignored), and a `Write` before any `WriteHeader` commits an implicit 200. -/
def applyAction (res : Response) (a : WAction) : Response :=
  match a with
  | .setHeader k v =>
      if res.status.isNone then { res with headers := setHdr res.headers k v } else res
  | .writeHeader c =>
      if res.status.isNone then { res with status := some c } else res
  | .write s =>
      let res' := if res.status.isNone then { res with status := some 200 } else res
      { res' with body := res'.body ++ s }

def runActions (as : List WAction) : Response :=
  as.foldl applyAction emptyResponse

/-- The response the client receives from a handler on a request. -/
def runHandler (h : Handler) (r : Request) : Response :=
  runActions (h r).actions

/-! ## Router (`Router`, `Router.GET`, `ServeMux` dispatch)

`Router.routerMap` is a Go map written by `r.routerMap[path] = controller`;
we record the registration sequence and read it with last-write-wins lookup,
which is observationally the map's overwrite semantics. -/

/-- `ControllerFunc func(w http.ResponseWriter, r *http.Request)`. -/
def ControllerFunc : Type := Handler

structure Router where
  routerMap : List (String × ControllerFunc)

def NewRouter : Router := ⟨[]⟩

/-- `func (r *Router) GET(path string, controller ControllerFunc)`:
`r.routerMap[path] = controller` (overwrite on re-registration). -/
def Router.GET (rt : Router) (path : String) (controller : ControllerFunc) : Router :=
  ⟨rt.routerMap ++ [(path, controller)]⟩

/-- Map read: the value of the last write to the key, if any. -/
def mapLookup (m : List (String × ControllerFunc)) (path : String) : Option ControllerFunc :=
  m.foldl (fun acc p => if p.1 == path then some p.2 else acc) none

/-- `http.NotFound`: the `ServeMux` default when no pattern matches. -/
def notFoundProg : HandlerProg :=
  { actions := [ .setHeader "Content-Type" "text/plain; charset=utf-8"
               , .setHeader "X-Content-Type-Options" "nosniff"
               , .writeHeader 404
               , .write "404 page not found\n" ]
  , logs := [], outcome := .ok, time := 0 }

/-- `routes(cfg)` as a dispatcher: the `ServeMux` holding every
`mux.HandleFunc(path, handler)` from the router, matched on the exact request
path; the method is never consulted.  (The `/css/` static file mount delegated
to `http.FileServer` is external plumbing and outside the claims.) -/
def muxDispatch (rt : Router) : Handler := fun r =>
  match mapLookup rt.routerMap r.path with
  | some h => h r
  | none => notFoundProg

structure Config where
  router : Router

def routes (cfg : Config) : Handler := muxDispatch cfg.router

/-! ## Error reporter (`ErrorHandler.HandleError`) -/

/-- `type ErrorHandler struct { PanicHandler bool }`. -/
structure ErrorHandler where
  PanicHandler : Bool

/-- How `fmt` renders an `error` value under `%s` / `%v`. -/
def errText : Option String → String
  | some e => e
  | none => "%!s(<nil>)"

/-- `agent` in the non-panic branch: the first `User-Agent` header value if one
is present, else `"Unknown"`. -/
def userAgentOf (r : Request) : String :=
  match r.headers.find? (fun p => p.1 == "User-Agent") with
  | some (_, v :: _) => v
  | _ => "Unknown"

/-- The `msg` format string of the non-panic branch of `HandleError`. -/
def serverErrorMsg (r : Request) : String :=
  "Server Error - Method: " ++ r.method ++ ", User Agent: " ++ userAgentOf r ++
    ", Remote Address: " ++ r.remoteAddr ++ ", Endpoint: " ++ r.requestURI

/-- `func (eh ErrorHandler) HandleError(r *http.Request, err error)`, returning
the log records it emits (an `error` is its message string, `none` for `nil`).
With `PanicHandler` set it always logs one line; otherwise it builds the
server-error line and logs it only inside `if err != nil`. -/
def ErrorHandler.HandleError (eh : ErrorHandler) (r : Request) (err : Option String) :
    List String :=
  if eh.PanicHandler then
    ["Panic: " ++ ("URI: " ++ r.requestURI ++ ", " ++ errText err)]
  else
    let msg := serverErrorMsg r
    match err with
    | some e => ["Panic: " ++ (msg ++ ", ERROR: " ++ e)]
    | none => []

/-! ## Recovery wrapper (`RecoverHandler`) -/

/-- The `switch x := rr.(type)` normalisation of the recovered panic value. -/
def normalizePanic : PanicVal → String
  | .str s => s
  | .err m => m
  | .other => "unknown panic"

/-- `http.StatusText(http.StatusInternalServerError)`. -/
def statusText500 : String := "Internal Server Error"

/-- The text `debug.Stack()` captures (a goroutine dump; its exact content is
runtime-dependent and never inspected, only reported). -/
def debugStackText : String := "goroutine 1 [running]: runtime/debug.Stack()"

/-- The writer calls `http.Error(w, msg, code)` makes: set `Content-Type` and
`X-Content-Type-Options`, commit the status, `Fprintln` the message. -/
def httpErrorActions (code : Nat) (msg : String) : List WAction :=
  [ .setHeader "Content-Type" "text/plain; charset=utf-8"
  , .setHeader "X-Content-Type-Options" "nosniff"
  , .writeHeader code
  , .write (msg ++ "\n") ]

/-- `RecoverHandler`: run the inner handler; on a recovered panic, normalise
the panic value, report `PANIC: <msg>` and `STACKTRACE: <stack>` through an
`ErrorHandler{}` (zero value, so `PanicHandler` is false), then `http.Error`
a 500 with the standard status text.  (`debug.PrintStack()` writes the trace
straight to stderr as well; that duplicate channel is not a log record and is
not modelled.)  On a normal return everything passes through. -/
def RecoverHandler (next : Handler) : Handler := fun r =>
  let p := next r
  match p.outcome with
  | .ok => p
  | .panicked v =>
      let err := normalizePanic v
      let eh : ErrorHandler := ⟨false⟩
      let perrLogs := eh.HandleError r (some ("PANIC: " ++ err))
      let etraceLogs := eh.HandleError r (some ("STACKTRACE: " ++ debugStackText))
      { actions := p.actions ++ httpErrorActions 500 statusText500
      , logs := p.logs ++ perrLogs ++ etraceLogs
      , outcome := .ok
      , time := p.time }

/-! ## Compression wrapper (`GZipHandler`) -/

/-- Lossless model of the `compress/gzip` stream (external standard library
code): the member framing prepended to the payload.  It is non-empty even for
an empty payload, as `gzip.Writer.Close` writes the header and footer even
when nothing was written. -/
def gzipMagic : String := "\x1f\x8b(gzip-member)"

def gzipCompress (s : String) : String := gzipMagic ++ s

/-- Inverse of `gzipCompress`: strip the member framing. -/
def gzipDecompress (s : String) : String := ⟨s.data.drop gzipMagic.data.length⟩

/-- `r.Header.Get("Accept-Encoding")` contains `"gzip"`. -/
def acceptsGzip (r : Request) : Bool :=
  strContains (headerGet r "Accept-Encoding") "gzip"

/-- Concatenation of the bytes the trace writes. -/
def writesOf : List WAction → String
  | [] => ""
  | .write s :: as => s ++ writesOf as
  | _ :: as => writesOf as

/-- The trace as seen through `gzipResponseWriter`: `Header()`/`WriteHeader`
go to the underlying writer unchanged, `Write` goes into the `gzip.Writer`,
and the deferred `gz.Close()` flushes the compressed stream to the underlying
writer on every exit path, a panic included. -/
def gzipTransform (as : List WAction) : List WAction :=
  as.filter (fun a => match a with | .write _ => false | _ => true)
    ++ [WAction.write (gzipCompress (writesOf as))]

/-- `GZipHandler`: without `gzip` in `Accept-Encoding`, serve the original
request unchanged; otherwise set `Content-Encoding: gzip` first, then run the
inner handler against the compressing writer. -/
def GZipHandler (h : Handler) : Handler := fun r =>
  if acceptsGzip r then
    let p := h r
    { p with actions := WAction.setHeader "Content-Encoding" "gzip" :: gzipTransform p.actions }
  else h r

/-! ## Timeout wrapper (`TimeoutHandler`) -/

/-- `4 * time.Second`, in nanoseconds: the single server-owned ceiling. -/
def timeoutCeiling : Nat := 4 * 1000000000

/-- `http.TimeoutHandler(h, 4*time.Second, "timed out")`: the inner handler
runs against a buffered writer; if it finishes within the ceiling its buffered
response is released unchanged, otherwise the client gets a fixed 503 with
body `"timed out"` and none of the handler's output.  The inner goroutine's
log lines happen either way. -/
def TimeoutHandler (h : Handler) : Handler := fun r =>
  let p := h r
  if p.time > timeoutCeiling then
    { actions := [WAction.writeHeader 503, WAction.write "timed out"]
    , logs := p.logs, outcome := .ok, time := timeoutCeiling }
  else p

/-! ## Metrics wrapper (`RequestMetricsHandler`) -/

/-- The `log.Printf("Request: %s %s %d", uri, method, duration)` line. -/
def metricsLine (r : Request) (duration : Nat) : String :=
  "Request: " ++ r.requestURI ++ " " ++ r.method ++ " " ++ toString duration

/-- `RequestMetricsHandler`: record the start time, serve the request, then
log the line.  The log statement is straight-line code after `h.ServeHTTP`
(not deferred), so a panic propagating out of the inner handler skips it. -/
def RequestMetricsHandler (h : Handler) : Handler := fun r =>
  let p := h r
  match p.outcome with
  | .ok => { p with logs := p.logs ++ [metricsLine r p.time] }
  | .panicked _ => p

/-! ## Pipeline composer (`handler`) -/

/-- `alice.New(TimeoutHandler, RecoverHandler, RequestMetricsHandler,
GZipHandler).Then(routes(cfg))`. -/
def handler (cfg : Config) : Handler :=
  aliceThen [TimeoutHandler, RecoverHandler, RequestMetricsHandler, GZipHandler] (routes cfg)

/-! ## Auxiliary predicates and sample inputs used by the theorems -/

/-- A trace that only touches headers: it never commits a status or writes. -/
def headerOnly (as : List WAction) : Bool :=
  as.all fun a => match a with | .setHeader _ _ => true | _ => false

/-- Character-level `strings.HasPrefix`. -/
def strStartsWith (nee hay : String) : Bool :=
  List.isPrefixOf nee.data hay.data

/-- A sample request with no `User-Agent` header and gzip not accepted. -/
def cexReq : Request :=
  { method := "GET", requestURI := "/x", path := "/x"
  , remoteAddr := "10.0.0.1:9", headers := [] }

/-- A sample request declaring gzip support. -/
def gzReq : Request :=
  { method := "GET", requestURI := "/x", path := "/x"
  , remoteAddr := "10.0.0.1:9", headers := [("Accept-Encoding", ["gzip, deflate"])] }

/-! ## Helper lemmas about the trace interpreter -/

theorem applyAction_body (res : Response) (a : WAction) :
    (applyAction res a).body = res.body ++ writesOf [a] := by
  cases a with
  | setHeader k v =>
      simp only [applyAction, writesOf, String.append_empty]
      split <;> rfl
  | writeHeader c =>
      simp only [applyAction, writesOf, String.append_empty]
      split <;> rfl
  | write s =>
      simp only [applyAction, writesOf, String.append_empty]
      split <;> rfl

theorem foldl_applyAction_body (as : List WAction) (res : Response) :
    (List.foldl applyAction res as).body = res.body ++ writesOf as := by
  induction as generalizing res with
  | nil => simp [writesOf, String.append_empty]
  | cons a as ih =>
      rw [List.foldl_cons, ih, applyAction_body]
      cases a <;> simp [writesOf, String.append_assoc, String.append_empty]

theorem runActions_body (as : List WAction) : (runActions as).body = writesOf as := by
  rw [runActions, foldl_applyAction_body]
  exact String.empty_append _

theorem writesOf_append (as bs : List WAction) :
    writesOf (as ++ bs) = writesOf as ++ writesOf bs := by
  induction as with
  | nil => simp [writesOf, String.empty_append]
  | cons a as ih => cases a <;> simp [writesOf, ih, String.append_assoc]

theorem writesOf_filter_nonwrite (as : List WAction) :
    writesOf (as.filter (fun a => match a with | .write _ => false | _ => true)) = "" := by
  induction as with
  | nil => rfl
  | cons a as ih => cases a <;> simp [List.filter_cons, writesOf, ih]

theorem gzip_roundtrip (s : String) : gzipDecompress (gzipCompress s) = s := by
  cases s with
  | mk data =>
      simp only [gzipCompress, gzipDecompress]
      have hd : (gzipMagic ++ String.mk data).data = gzipMagic.data ++ data :=
        String.data_append ..
      rw [hd, List.drop_left]

theorem foldl_headerOnly (as : List WAction) (res : Response)
    (hst : res.status = none) (hb : res.body = "") (hho : headerOnly as = true) :
    (List.foldl applyAction res as).status = none ∧
    (List.foldl applyAction res as).body = "" := by
  induction as generalizing res with
  | nil => exact ⟨hst, hb⟩
  | cons a as ih =>
      cases a with
      | setHeader k v =>
          have ha : applyAction res (.setHeader k v) =
              { res with headers := setHdr res.headers k v } := by
            simp [applyAction, hst]
          rw [List.foldl_cons, ha]
          exact ih _ hst hb (by simpa [headerOnly] using hho)
      | writeHeader c => simp [headerOnly] at hho
      | write s => simp [headerOnly] at hho

theorem httpError_run (res : Response) (code : Nat) (msg : String)
    (hst : res.status = none) (hb : res.body = "") :
    (List.foldl applyAction res (httpErrorActions code msg)).status = some code ∧
    (List.foldl applyAction res (httpErrorActions code msg)).body = msg ++ "\n" := by
  simp [httpErrorActions, applyAction, hst, hb, String.empty_append]

theorem mapLookup_last (m : List (String × ControllerFunc)) (path : String)
    (c : ControllerFunc) : mapLookup (m ++ [(path, c)]) path = some c := by
  simp [mapLookup, List.foldl_append]

/-! ## Claim theorems -/

/-- C1: the composed server handler applies the wrappers in exactly the order
Timeout outermost, then Recovery, then Metrics, then Compression, with the
router dispatch innermost: for every request, the composed handler behaves as
`TimeoutHandler (RecoverHandler (RequestMetricsHandler (GZipHandler (routes
cfg))))`. -/
theorem c1_composition_order (cfg : Config) :
    handler cfg
      = TimeoutHandler (RecoverHandler (RequestMetricsHandler (GZipHandler (routes cfg)))) ∧
    ∀ r : Request,
      handler cfg r
        = TimeoutHandler (RecoverHandler (RequestMetricsHandler (GZipHandler (routes cfg)))) r :=
  ⟨rfl, fun _ => rfl⟩

/-- C4: for a request whose `Accept-Encoding` does not declare gzip support,
`GZipHandler` delegates to the downstream handler with the response sink
unchanged: the trace, and hence every response byte and header, is identical
to the unwrapped run, and no `Content-Encoding` header is added. -/
theorem c4_gzip_passthrough (h : Handler) (r : Request) (hacc : acceptsGzip r = false) :
    GZipHandler h r = h r ∧ runHandler (GZipHandler h) r = runHandler h r := by
  have heq : GZipHandler h r = h r := by simp [GZipHandler, hacc]
  refine ⟨heq, ?_⟩
  simp only [runHandler, heq]

theorem c4_gzip_passthrough_witness :
    acceptsGzip cexReq = false ∧ GZipHandler (fun _ => notFoundProg) cexReq = notFoundProg :=
  ⟨by decide, (c4_gzip_passthrough (fun _ => notFoundProg) cexReq (by decide)).1⟩

/-- C7: a request whose downstream handling exceeds the ceiling never receives
any of the handler's own body: the client gets exactly the fixed plaintext
body `"timed out"` (with status 503); and the ceiling is the single
server-owned constant `timeoutCeiling`, applied uniformly — any run within it
passes through unchanged regardless of handler or route. -/
theorem c7_timeout_ceiling (h : Handler) (r : Request) :
    ((h r).time > timeoutCeiling →
      (runHandler (TimeoutHandler h) r).body = "timed out" ∧
      (runHandler (TimeoutHandler h) r).status = some 503) ∧
    ((h r).time ≤ timeoutCeiling → TimeoutHandler h r = h r) := by
  constructor
  · intro ht
    have : TimeoutHandler h r =
        { actions := [WAction.writeHeader 503, WAction.write "timed out"]
        , logs := (h r).logs, outcome := .ok, time := timeoutCeiling } := by
      simp [TimeoutHandler, ht]
    rw [runHandler, this]
    exact ⟨rfl, rfl⟩
  · intro ht
    simp [TimeoutHandler, Nat.not_lt.mpr ht]

def slowHandler : Handler := fun _ =>
  { actions := [WAction.write "late body"], logs := [], outcome := .ok, time := 5000000000 }

theorem c7_timeout_ceiling_witness :
    (slowHandler cexReq).time > timeoutCeiling ∧
    (runHandler (TimeoutHandler slowHandler) cexReq).body = "timed out" :=
  ⟨by decide, ((c7_timeout_ceiling slowHandler cexReq).1 (by decide)).1⟩

/-- C8: for every path `P` and every registration sequence, dispatching a
request whose path exactly matches `P` invokes the handler registered last for
`P`: re-registering `P` fully replaces the prior handler in the route table,
with no duplicate-detection error. -/
theorem c8_last_registration_wins (rt : Router) (P : String) (c₁ c₂ : ControllerFunc)
    (r : Request) (hr : r.path = P) :
    muxDispatch ((rt.GET P c₁).GET P c₂) r = c₂ r ∧
    mapLookup ((rt.GET P c₁).GET P c₂).routerMap P = some c₂ := by
  have hl : mapLookup ((rt.GET P c₁).GET P c₂).routerMap P = some c₂ :=
    mapLookup_last _ P c₂
  refine ⟨?_, hl⟩
  rw [muxDispatch, hr, hl]

def ctrlA : ControllerFunc := fun _ =>
  { actions := [WAction.write "A"], logs := [], outcome := .ok, time := 0 }

def ctrlB : ControllerFunc := fun _ =>
  { actions := [WAction.write "B"], logs := [], outcome := .ok, time := 0 }

theorem c8_last_registration_wins_witness :
    cexReq.path = "/x" ∧
    muxDispatch ((NewRouter.GET "/x" ctrlA).GET "/x" ctrlB) cexReq = ctrlB cexReq :=
  ⟨rfl, (c8_last_registration_wins NewRouter "/x" ctrlA ctrlB cexReq rfl).1⟩

/-- C10: a handler registered through `Router.GET` is dispatched for a request
with any HTTP method, not only GET: registration is keyed by path alone and
dispatch never inspects the method. -/
theorem c10_method_never_inspected (rt : Router) (P : String) (c : ControllerFunc)
    (r : Request) (m : String) (hr : r.path = P) :
    muxDispatch (rt.GET P c) { r with method := m } = c { r with method := m } := by
  have hl : mapLookup (rt.GET P c).routerMap P = some c := mapLookup_last _ P c
  have hp : ({ r with method := m } : Request).path = P := hr
  rw [muxDispatch, hp, hl]

theorem c10_method_never_inspected_witness :
    cexReq.path = "/x" ∧
    muxDispatch (NewRouter.GET "/x" ctrlA) { cexReq with method := "DELETE" }
      = ctrlA { cexReq with method := "DELETE" } :=
  ⟨rfl, c10_method_never_inspected NewRouter "/x" ctrlA cexReq "DELETE" rfl⟩

/-- C9: the recovery wrapper normalises the recovered panic value — a string
becomes an error with that string as message, an error is used as-is, any
other value yields `"unknown panic"` — and the reported message is prefixed
with a `PANIC:` marker. -/
theorem c9_panic_normalization (r : Request) (v : PanicVal) (s m : String) :
    normalizePanic (.str s) = s ∧
    normalizePanic (.err m) = m ∧
    normalizePanic .other = "unknown panic" ∧
    (RecoverHandler (fun _ => ⟨[], [], .panicked v, 0⟩) r).logs =
      [ "Panic: " ++ (serverErrorMsg r ++ ", ERROR: " ++ ("PANIC: " ++ normalizePanic v))
      , "Panic: " ++ (serverErrorMsg r ++ ", ERROR: " ++ ("STACKTRACE: " ++ debugStackText)) ] :=
  ⟨rfl, rfl, rfl, rfl⟩

/-- A handler that writes body bytes and then panics. -/
def partialWriteHandler : Handler := fun _ =>
  { actions := [WAction.write "hi"], logs := [], outcome := .panicked (.str "boom"), time := 0 }

/-- C2 as stated is false: a downstream handler that writes before panicking
has already committed an implicit 200, so `http.Error`'s `WriteHeader(500)` is
ignored and the client sees status 200 with the handler's partial output
followed by the error text — not "exactly one HTTP 500 response whose body is
the standard status text". -/
theorem c2_counterexample :
    (runHandler (RecoverHandler partialWriteHandler) cexReq).status = some 200 ∧
    (runHandler (RecoverHandler partialWriteHandler) cexReq).status ≠ some 500 ∧
    (runHandler (RecoverHandler partialWriteHandler) cexReq).body ≠ statusText500 ++ "\n" := by
  decide

/-- C2 amended: for every downstream handler that panics with any value
*before committing any response data or status* (its trace touches headers at
most), the client receives exactly one HTTP 500 response whose body is the
standard status text with no stack-trace content, and exactly one `PANIC:`
diagnostic plus one `STACKTRACE:` diagnostic is reported via the Error
Reporter. -/
theorem c2_recover_clean_500 (h : Handler) (r : Request) (v : PanicVal)
    (hp : (h r).outcome = .panicked v) (hho : headerOnly (h r).actions = true) :
    (runHandler (RecoverHandler h) r).status = some 500 ∧
    (runHandler (RecoverHandler h) r).body = statusText500 ++ "\n" ∧
    strContains (runHandler (RecoverHandler h) r).body debugStackText = false ∧
    (RecoverHandler h r).logs = (h r).logs ++
      [ "Panic: " ++ (serverErrorMsg r ++ ", ERROR: " ++ ("PANIC: " ++ normalizePanic v))
      , "Panic: " ++ (serverErrorMsg r ++ ", ERROR: " ++ ("STACKTRACE: " ++ debugStackText)) ] := by
  have hrec : RecoverHandler h r =
      { actions := (h r).actions ++ httpErrorActions 500 statusText500
      , logs := (h r).logs ++
          [ "Panic: " ++ (serverErrorMsg r ++ ", ERROR: " ++ ("PANIC: " ++ normalizePanic v))
          , "Panic: " ++ (serverErrorMsg r ++ ", ERROR: " ++ ("STACKTRACE: " ++ debugStackText)) ]
      , outcome := .ok, time := (h r).time } := by
    simp only [RecoverHandler, hp, ErrorHandler.HandleError, Bool.false_eq_true, if_false,
      List.append_assoc, List.singleton_append]
  have hbase := foldl_headerOnly (h r).actions emptyResponse rfl rfl hho
  have hrun : runHandler (RecoverHandler h) r =
      List.foldl applyAction (List.foldl applyAction emptyResponse (h r).actions)
        (httpErrorActions 500 statusText500) := by
    rw [runHandler, hrec]
    simp only [runActions, List.foldl_append]
  have herr := httpError_run (List.foldl applyAction emptyResponse (h r).actions)
    500 statusText500 hbase.1 hbase.2
  refine ⟨by rw [hrun]; exact herr.1, by rw [hrun]; exact herr.2, ?_, by rw [hrec]⟩
  · rw [hrun, herr.2]
    decide

theorem c2_recover_clean_500_witness :
    ((fun _ => (⟨[], [], .panicked .other, 0⟩ : HandlerProg)) cexReq).outcome
      = Outcome.panicked .other ∧
    (runHandler (RecoverHandler (fun _ => ⟨[], [], .panicked .other, 0⟩)) cexReq).status
      = some 500 :=
  ⟨rfl, (c2_recover_clean_500 (fun _ => ⟨[], [], .panicked .other, 0⟩) cexReq .other
    rfl rfl).1⟩

/-- C3: for every request declaring gzip support, decompressing the body
produced through `GZipHandler` yields exactly the bytes the same downstream
handler writes in an unwrapped run, and the `Content-Encoding: gzip` header is
set as the very first writer action, before any body bytes. -/
theorem c3_gzip_transparent (h : Handler) (r : Request) (hacc : acceptsGzip r = true) :
    gzipDecompress (runHandler (GZipHandler h) r).body = (runHandler h r).body ∧
    (GZipHandler h r).actions.head?
      = some (WAction.setHeader "Content-Encoding" "gzip") := by
  have hgz : GZipHandler h r =
      { h r with actions :=
          WAction.setHeader "Content-Encoding" "gzip" :: gzipTransform (h r).actions } := by
    simp [GZipHandler, hacc]
  refine ⟨?_, by rw [hgz]; rfl⟩
  rw [runHandler, runHandler, hgz]
  simp only [runActions_body, writesOf, gzipTransform, writesOf_append,
    writesOf_filter_nonwrite, String.empty_append, String.append_empty, gzip_roundtrip]

def helloHandler : Handler := fun _ =>
  { actions := [WAction.write "hello ", WAction.write "world"]
  , logs := [], outcome := .ok, time := 0 }

theorem c3_gzip_transparent_witness :
    acceptsGzip gzReq = true ∧
    gzipDecompress (runHandler (GZipHandler helloHandler) gzReq).body
      = (runHandler helloHandler gzReq).body :=
  ⟨by decide, (c3_gzip_transparent helloHandler gzReq (by decide)).1⟩

/-- A handler that panics without leaving any trace or log. -/
def panickingHandler : Handler := fun _ =>
  { actions := [], logs := [], outcome := .panicked (.str "boom"), time := 7 }

/-- C5 as stated is false: the metrics log statement is straight-line code
after `h.ServeHTTP`, not deferred, so a downstream panic that the enclosing
recovery wrapper later converts into a completed 500 response skips it — the
completed request produces zero metrics lines, not one. -/
theorem c5_counterexample :
    (RecoverHandler (RequestMetricsHandler panickingHandler) cexReq).outcome = .ok ∧
    (RequestMetricsHandler panickingHandler cexReq).logs = [] ∧
    ((RecoverHandler (RequestMetricsHandler panickingHandler) cexReq).logs.countP
      (fun l => strStartsWith "Request: " l)) = 0 := by
  decide

/-- C5 amended: the metrics wrapper emits exactly one log line — containing
the request's URI, method and the downstream duration — for every request
whose downstream handling returns normally; when the downstream handler
panics, the fault passes through and no metrics line is emitted. -/
theorem c5_metrics_line (h : Handler) (r : Request) :
    (RequestMetricsHandler h r).logs =
      (h r).logs ++ (match (h r).outcome with
                     | .ok => [metricsLine r (h r).time]
                     | .panicked _ => []) := by
  cases hout : (h r).outcome with
  | ok => simp only [RequestMetricsHandler, hout]
  | panicked v => simp only [RequestMetricsHandler, hout, List.append_nil]

/-- C6 as stated is false: with `PanicHandler` unset and a nil error,
`HandleError` builds the diagnostic message but the `log.Printf` sits inside
`if err != nil`, so the call emits zero log records, not exactly one. -/
theorem c6_counterexample :
    (ErrorHandler.mk false).HandleError cexReq none = [] ∧
    ((ErrorHandler.mk false).HandleError cexReq none).length ≠ 1 := by
  decide

/-- C6 amended: `HandleError` emits exactly one log record whenever the
handler is in panic mode or the error is non-nil; in the non-panic path with a
present error the single line embeds the request method, the user agent (first
`User-Agent` value, else the sentinel `"Unknown"`), the remote address and the
target path, with the error text appended.  With a nil error in the non-panic
path, no record is emitted. -/
theorem c6_error_reporter_line (r : Request) (e : String) :
    (ErrorHandler.mk false).HandleError r (some e) =
      ["Panic: " ++ (("Server Error - Method: " ++ r.method ++ ", User Agent: "
        ++ userAgentOf r ++ ", Remote Address: " ++ r.remoteAddr ++ ", Endpoint: "
        ++ r.requestURI) ++ ", ERROR: " ++ e)] ∧
    ((ErrorHandler.mk true).HandleError r (some e)).length = 1 ∧
    ((ErrorHandler.mk true).HandleError r none).length = 1 ∧
    ((ErrorHandler.mk false).HandleError r none).length = 0 ∧
    (r.headers.find? (fun p => p.1 == "User-Agent") = none → userAgentOf r = "Unknown") :=
  ⟨rfl, rfl, rfl, rfl, fun hna => by rw [userAgentOf, hna]⟩

theorem c6_error_reporter_line_witness :
    cexReq.headers.find? (fun p => p.1 == "User-Agent") = none ∧
    userAgentOf cexReq = "Unknown" ∧
    (ErrorHandler.mk false).HandleError cexReq (some "oops") =
      ["Panic: Server Error - Method: GET, User Agent: Unknown, Remote Address: 10.0.0.1:9, Endpoint: /x, ERROR: oops"] :=
  ⟨rfl, (c6_error_reporter_line cexReq "oops").2.2.2.2 rfl,
    by rw [(c6_error_reporter_line cexReq "oops").1]; decide⟩

end Goweb
